import Mathlib

/-!
Verification of the inventory ingestion pipeline of `src/index.tsx`
(MagiayEstilo).  The TypeScript source is shallowly embedded: JavaScript
strings are modelled as `List Char`, fallible JavaScript expressions
(array construction with an invalid length, out-of-range member access)
are modelled with `Except`, and the nondeterministic `generateId`
(`Math.random`-based) is modelled as a fresh-identifier supply threaded
through the computation as a counter.  `JSON.parse` of the payload is an
opaque browser builtin and is taken as an explicit function parameter of
the pipeline; `parseFloat` is modelled on exact decimals (sign, integer
digits, fraction digits — the exponent and `Infinity` forms and binary
rounding of IEEE doubles are outside the inputs exercised here).
`Char.toUpper`/`Char.toLower` model `toUpperCase`/`toLowerCase` on the
ASCII range, which covers the header caption comparison in the source.
-/

/-- JavaScript strings, modelled as lists of characters. -/
abbrev Str := List Char

-- ## Basic string helpers mirroring JS builtins

/-- Whitespace as stripped by `String.prototype.trim` / leading
`parseFloat` (common forms). -/
def jsIsWs (ch : Char) : Bool :=
  ch = ' ' || ch = '\t' || ch = '\n' || ch = '\r'

/-- `String.prototype.trim`: strip whitespace from both ends. -/
def jsTrim (s : Str) : Str :=
  ((s.dropWhile jsIsWs).reverse.dropWhile jsIsWs).reverse

/-- `String.prototype.toUpperCase` (ASCII range). -/
def jsToUpper (s : Str) : Str := s.map Char.toUpper

/-- `String.prototype.toLowerCase` (ASCII range). -/
def jsToLower (s : Str) : Str := s.map Char.toLower

/-- Decimal digits to a natural number. -/
def digitsToNat (l : List Char) : Nat :=
  l.foldl (fun acc ch => 10 * acc + (ch.toNat - 48)) 0

/-- `parseFloat` on decimal literals: skip leading whitespace, optional
sign, integer digits, optional fraction after a dot, longest valid
prefix; `none` models `NaN` (no digit consumed).  The parsed value is
kept exactly as a scaled decimal `(mant, scale)` denoting
`mant / 10 ^ scale`. -/
def parseFloatJS (s : Str) : Option (Int × Nat) :=
  let s1 := s.dropWhile jsIsWs
  let sgnAndRest : Int × Str :=
    match s1 with
    | '-' :: t => (-1, t)
    | '+' :: t => (1, t)
    | _ => (1, s1)
  let d1rest := sgnAndRest.2.span Char.isDigit
  let d2 : List Char :=
    match d1rest.2 with
    | '.' :: t => t.takeWhile Char.isDigit
    | _ => []
  if d1rest.1.isEmpty && d2.isEmpty then none
  else
    some (sgnAndRest.1 * ((digitsToNat d1rest.1 : Int) * (10 : Int) ^ d2.length
      + (digitsToNat d2 : Int)), d2.length)

/-- `Math.floor` of a scaled decimal `mant / 10 ^ scale` (floor
division rounds toward negative infinity, as `Math.floor` does). -/
def jsFloorDec (v : Int × Nat) : Int := Int.fdiv v.1 ((10 : Int) ^ v.2)

/-- `split(/[,\x2f]/)`: split on every comma or slash, keeping empty
segments (auxiliary, carries the reversed current segment). -/
def splitSizesAux : Str → Str → List Str
  | [], acc => [acc.reverse]
  | ch :: t, acc =>
    if ch = ',' || ch = '/' then acc.reverse :: splitSizesAux t []
    else splitSizesAux t (ch :: acc)

/-- `String(rawSizes).split(/[,\x2f]/)`. -/
def splitSizes (s : Str) : List Str := splitSizesAux s []

/-- Does `s` start with `pat`? (used for `indexOf`). -/
def startsWithL : Str → Str → Bool
  | _, [] => true
  | [], _ :: _ => false
  | ch :: t, d :: u => ch = d && startsWithL t u

/-- `String.prototype.indexOf` for a pattern: first index at which `pat`
occurs in `s`, `none` when absent (JS returns `-1`). -/
def idxOfSub : Str → Str → Option Nat
  | s, pat =>
    match s with
    | [] => if pat.isEmpty then some 0 else none
    | _ :: t =>
      if startsWithL s pat then some 0
      else (idxOfSub t pat).map (· + 1)

/-- `String.prototype.includes`. -/
def containsSub (s pat : Str) : Bool := (idxOfSub s pat).isSome

/-- `String.prototype.lastIndexOf` for a single character, `none` when
absent. -/
def lastIdxOfChar (s : Str) (ch : Char) : Option Nat :=
  match (s.reverse).findIdx? (· = ch) with
  | none => none
  | some i => some (s.length - 1 - i)

/-- `String.prototype.substring`: clamp both indices into `[0, length]`
and swap them when given in descending order. -/
def jsSubstring (s : Str) (a b : Int) : Str :=
  let n : Int := (s.length : Int)
  let a' := (max 0 (min a n)).toNat
  let b' := (max 0 (min b n)).toNat
  (s.drop (min a' b')).take (max a' b' - min a' b')

-- ## Domain model (the `interface` declarations of the source)

/-- `type UnitStatus = "available" | "sold"`. -/
inductive UnitStatus where
  | available
  | sold
deriving DecidableEq

/-- `interface StockUnit`. -/
structure StockUnit where
  id : Str
  status : UnitStatus
deriving DecidableEq

/-- `interface ProductSize`. -/
structure ProductSize where
  size : Str
  units : List StockUnit
deriving DecidableEq

/-- `interface Product`.  The source casts the (unvalidated) lower-cased
gender string to its `Gender` union type; the embedding keeps the honest
representation, a plain string. -/
structure Product where
  id : Str
  name : Str
  description : Str
  gender : Str
  imageUrl : Str
  price : Str
  sizes : List ProductSize
deriving DecidableEq

-- ## GVIZ payload shape (`jsonData.table?.rows`, `row.c`, `cell.v`)

/-- A GVIZ cell: `none` is a `null` array slot, `some none` a cell whose
`v` is `null`, `some (some s)` a cell with scalar `v` (already converted
by `String(...)`). -/
abbrev Cell := Option (Option Str)

/-- A GVIZ row: `c` may be absent. -/
structure Row where
  c : Option (List Cell)
deriving DecidableEq

/-- `jsonData.table` contents. -/
structure GvizTable where
  rows : Option (List Row)
deriving DecidableEq

/-- The decoded GVIZ payload. -/
structure GvizData where
  table : Option GvizTable
deriving DecidableEq

-- ## The parser (`parseGvizData`)

/-- The `getVal` helper of `parseGvizData`: absent or `null` cells and
`null` values project to the empty string. -/
def jsGetVal (cs : List Cell) (idx : Nat) : Str :=
  match cs.getD idx none with
  | none => []
  | some none => []
  | some (some v) => v

/-- The header caption checked against the upper-cased name column. -/
def headerCaption : Str := ("NOMBRE PRODUCTO").data

/-- `generateId()`: the source draws a random base-36 string; the
embedding draws the decimal spelling of the next counter value, keeping
freshness explicit. -/
def genId (n : Nat) : Str := Nat.toDigits 10 n

/-- The size-label list of a record:
`String(rawSizes).split(/[,\x2f]/).map(s => s.trim()).filter(s => s)`. -/
def sizeLabels (cs : List Cell) : List Str :=
  ((splitSizes (jsGetVal cs 5)).map jsTrim).filter (fun t => !t.isEmpty)

/-- `parseFloat(rawStock) || 0`: `NaN` becomes `0`; on numbers the
`|| 0` only rewrites falsy `0`/`-0` to `0`, the identity in this
representation (a `-0` parse already has mantissa `0`). -/
def stockQty (cs : List Cell) : Int × Nat :=
  (parseFloatJS (jsGetVal cs 6)).getD (0, 0)

/-- `Math.floor(stockQty)`. -/
def stockFloor (cs : List Cell) : Int := jsFloorDec (stockQty cs)

/-- The RangeError thrown by `Array(n)` for an invalid length. -/
def rangeErrMsg : Str := ("RangeError: Invalid array length").data

/-- `Array(n).fill(null).map(() => ({id: generateId(), status:
'available'}))` for a valid length `n`, drawing `n` fresh ids. -/
def mkUnits (counter n : Nat) : List StockUnit :=
  (List.range n).map (fun k => { id := genId (counter + k), status := .available })

/-- `sizeList.map(sizeName => ...)`: one bucket per label, each with
`Array(Math.floor(stockQty))` fresh units.  `Array(n)` throws a
RangeError when `n` is negative or at least `2^32`. -/
def buildSizes (counter : Nat) (labels : List Str) (n : Int) :
    Except Str (List ProductSize × Nat) :=
  match labels with
  | [] => .ok ([], counter)
  | l :: rest =>
    if n < 0 ∨ 4294967296 ≤ n then .error rangeErrMsg
    else
      match buildSizes (counter + n.toNat) rest n with
      | .error e => .error e
      | .ok (tail, c') =>
        .ok ({ size := l, units := mkUnits counter n.toNat } :: tail, c')

/-- One iteration of the `rows.map` callback of `parseGvizData`:
`ok none` models returning `null` (row dropped), `error` models a thrown
exception. -/
def parseRow (counter : Nat) (row : Row) : Except Str (Option Product × Nat) :=
  match row.c with
  | none => .ok (none, counter)
  | some cs =>
    if cs.length < 2 then .ok (none, counter)
    else if (jsGetVal cs 1).isEmpty
        || containsSub (jsToUpper (jsGetVal cs 1)) headerCaption then
      .ok (none, counter)
    else
      match buildSizes counter (sizeLabels cs) (stockFloor cs) with
      | .error e => .error e
      | .ok (sizes, c1) =>
        let rawId := jsGetVal cs 0
        let pidAndC : Str × Nat :=
          if rawId.isEmpty then (genId c1, c1 + 1) else (rawId, c1)
        .ok (some
          { id := pidAndC.1
            name := jsGetVal cs 1
            description := jsGetVal cs 2
            gender :=
              if (jsToLower (jsGetVal cs 3)).isEmpty then ("unisex").data
              else jsToLower (jsGetVal cs 3)
            imageUrl := jsGetVal cs 4
            price := []
            sizes := sizes }, pidAndC.2)

/-- `rows.map(...).filter(p => p !== null)` with left-to-right
evaluation and exception propagation. -/
def parseRows (counter : Nat) : List Row → Except Str (List Product)
  | [] => .ok []
  | r :: rs =>
    match parseRow counter r with
    | .error e => .error e
    | .ok (p?, c') =>
      match parseRows c' rs with
      | .error e => .error e
      | .ok ps =>
        .ok (match p? with | none => ps | some p => p :: ps)

/-- `parseGvizData`: `jsonData.table?.rows || []` then the row map. -/
def parseGvizData (dta : GvizData) : Except Str (List Product) :=
  parseRows 0 ((dta.table.bind GvizTable.rows).getD [])

-- ## Decidable equality for `Except` results (used to evaluate the
-- model on concrete inputs)

instance {ε α : Type} [DecidableEq ε] [DecidableEq α] : DecidableEq (Except ε α) := fun x y =>
  match x, y with
  | .error a, .error b =>
    if h : a = b then .isTrue (by rw [h])
    else .isFalse (by intro hc; cases hc; exact h rfl)
  | .error _, .ok _ => .isFalse (by intro hc; cases hc)
  | .ok _, .error _ => .isFalse (by intro hc; cases hc)
  | .ok a, .ok b =>
    if h : a = b then .isTrue (by rw [h])
    else .isFalse (by intro hc; cases hc; exact h rfl)

-- ## The local stock toggle (`updateProductStock`)

/-- The TypeError thrown by `newSizes[sizeIndex].units` when the bucket
index is out of range (the slot is `undefined`). -/
def typeErrMsg : Str :=
  ("TypeError: Cannot read properties of undefined (reading \x27units\x27)").data

/-- The per-unit map of `updateProductStock`:
`u.id === unitId ? { ...u, status: newStatus } : u`. -/
def toggleUnit (unitId : Str) (newStatus : UnitStatus) (u : StockUnit) : StockUnit :=
  if u.id = unitId then { u with status := newStatus } else u

/-- The `products.map` callback of `updateProductStock`: a non-matching
product is returned unchanged; for a matching product the bucket at
`sizeIndex` is read (throwing when the index is out of range) and its
units are mapped. -/
def updateProduct (productId : Str) (sizeIndex : Nat) (unitId : Str)
    (newStatus : UnitStatus) (p : Product) : Except Str Product :=
  if p.id ≠ productId then .ok p
  else
    match p.sizes.get? sizeIndex with
    | none => .error typeErrMsg
    | some s =>
      let newUnits := s.units.map (toggleUnit unitId newStatus)
      .ok { p with sizes := p.sizes.set sizeIndex { s with units := newUnits } }

/-- `Array.prototype.map` with exception propagation (a throw in the
callback aborts the whole map). -/
def mapExcept (f : α → Except Str β) : List α → Except Str (List β)
  | [] => .ok []
  | a :: l =>
    match f a with
    | .error e => .error e
    | .ok b =>
      match mapExcept f l with
      | .error e => .error e
      | .ok bs => .ok (b :: bs)

/-- `updateProductStock`: maps the toggle over the whole snapshot.  An
`error` models the thrown TypeError reaching the event handler (the
store is then left untouched, since `setProducts` is never called). -/
def updateProductStock (ps : List Product) (productId : Str) (sizeIndex : Nat)
    (unitId : Str) (newStatus : UnitStatus) : Except Str (List Product) :=
  mapExcept (updateProduct productId sizeIndex unitId newStatus) ps

-- ## The fetch cycle tail (`fetchSheet`): envelope stripping and store update

/-- The GVIZ callback wrapper marker searched with `indexOf`. -/
def marker : Str := ("google.visualization.Query.setResponse(").data

/-- Error shown when the marker is absent (`Respuesta inesperada`). -/
def unexpectedRespMsg : Str :=
  ("Respuesta inesperada de Google. Verifica permisos de la hoja.").data

/-- Error shown when parsing succeeds but no product rows result. -/
def emptyResultMsg : Str :=
  ("Conexi\x00f3n exitosa a la pesta\x00f1a \x27Inventario\x27, pero no se encontraron filas de productos. Revisa que haya datos debajo de los encabezados.").data

/-- Prefix of the message set by the outer `catch` of `fetchSheet`. -/
def connErrPrefix : Str := ("Error de conexi\x00f3n. ").data

/-- The store state the claims are about: the current snapshot and the
ingestion error message. -/
structure StoreState where
  products : List Product
  error : Option Str
deriving DecidableEq

/-- `jsonText.lastIndexOf(")")` with the JS `-1`-for-absent encoding. -/
def lastParenIdx (text : Str) : Int :=
  match lastIdxOfChar text ')' with
  | none => -1
  | some p => (p : Int)

/-- The substring handed to `JSON.parse` when the marker is present at
first index `i`: `jsonText.substring(jsonStart + 39, jsonText.lastIndexOf(")"))`. -/
def extractEnvelope (text : Str) : Option Str :=
  match idxOfSub text marker with
  | none => none
  | some i => some (jsSubstring text ((i : Int) + 39) (lastParenIdx text))

/-- The tail of a `fetchSheet` cycle once raw text has been obtained:
envelope check, `JSON.parse` (an opaque builtin, passed in as `decode`;
its `error` carries the thrown message), `parseGvizData`, and the store
update.  Thrown exceptions land in the outer `catch`, which sets the
connection-error message and leaves the snapshot untouched. -/
def processRawText (decode : Str → Except Str GvizData) (text : Str)
    (st : StoreState) : StoreState :=
  match idxOfSub text marker with
  | none => { st with error := some unexpectedRespMsg }
  | some i =>
    let cleanJson := jsSubstring text ((i : Int) + 39) (lastParenIdx text)
    match decode cleanJson with
    | .error m => { st with error := some (connErrPrefix ++ m) }
    | .ok parsed =>
      match parseGvizData parsed with
      | .error e => { st with error := some (connErrPrefix ++ e) }
      | .ok ps =>
        if ps.length > 0 then { products := ps, error := none }
        else { st with error := some emptyResultMsg }

-- ## Retrieval (`fetchSheet` head): proxy strategies with fallback

/-- Sheet document identifier (configuration constant). -/
def SHEET_ID : Str := ("1Tf8ob7GSg8AytO-JdOL7HKCQYRaCu56-NrTaYsXkYak").data

/-- Sheet tab identifier (configuration constant). -/
def SHEET_GID : Str := ("1156577664").data

/-- The GVIZ endpoint URL built in `fetchSheet`. -/
def gvizUrl : Str :=
  ("https://docs.google.com/spreadsheets/d/").data ++ SHEET_ID
    ++ ("/gviz/tq?tqx=out:json&gid=").data ++ SHEET_GID

/-- Characters `encodeURIComponent` leaves unescaped. -/
def uriUnreserved (ch : Char) : Bool :=
  ch.isAlphanum || ch = '-' || ch = '_' || ch = '.' || ch = '!' || ch = '~'
    || ch = '*' || ch = Char.ofNat 39 || ch = '(' || ch = ')'

/-- Upper-case hexadecimal digit. -/
def hexDigitChar (n : Nat) : Char :=
  if n < 10 then Char.ofNat (48 + n) else Char.ofNat (55 + n)

/-- `encodeURIComponent` (ASCII range: one percent-escape per char). -/
def pctEncode (s : Str) : Str :=
  (s.map (fun ch =>
    if uriUnreserved ch then [ch]
    else ['%', hexDigitChar (ch.toNat / 16 % 16), hexDigitChar (ch.toNat % 16)])).flatten

/-- What the model observes of a `fetch` response: the transport status
(`response.ok`), the `contents` field of the decoded AllOrigins JSON
body when present, and the plain text body. -/
structure NetResponse where
  ok : Bool
  contents : Option Str
  body : Str

/-- The AllOrigins strategy (primary): wraps the cache-busted URL in the
AllOrigins proxy, requires a successful status and a `contents` field.
`net` is the browser `fetch`, whose `error` is a thrown transport
failure; `t` is the `new Date().getTime()` cache-busting timestamp. -/
def strategyAllOrigins (net : Str → Except Str NetResponse) (t : Nat) (u : Str) :
    Except Str Str :=
  let noCacheUrl := u ++ ("&_=").data ++ Nat.toDigits 10 t
  let proxyUrl := ("https://api.allorigins.win/get?url=").data ++ pctEncode noCacheUrl
  match net proxyUrl with
  | .error e => .error e
  | .ok r =>
    if !r.ok then .error (("AllOrigins Error").data)
    else
      match r.contents with
      | some txt => .ok txt
      | none => .error (("No content").data)

/-- The CorsProxy strategy (backup): wraps the cache-busted URL in the
CorsProxy relay, requires a successful status, returns the text body. -/
def strategyCorsProxy (net : Str → Except Str NetResponse) (t : Nat) (u : Str) :
    Except Str Str :=
  let noCacheUrl := u ++ ("&_=").data ++ Nat.toDigits 10 t
  let proxyUrl := ("https://corsproxy.io/?").data ++ pctEncode noCacheUrl
  match net proxyUrl with
  | .error e => .error e
  | .ok r =>
    if !r.ok then .error (("CorsProxy Error").data)
    else .ok r.body

/-- The aggregated message thrown when both strategies have failed. -/
def connectErrMsg : Str :=
  ("No se pudo conectar. Verifica que la hoja est\x00e9 compartida como \x27Cualquiera con el enlace puede ver\x27.").data

/-- The retrieval block of `fetchSheet`: AllOrigins first, CorsProxy on
failure, and the aggregated guidance message when both fail (`t1`, `t2`
are the two timestamps drawn for the two attempts). -/
def retrieveRaw (net : Str → Except Str NetResponse) (t1 t2 : Nat) (u : Str) :
    Except Str Str :=
  match strategyAllOrigins net t1 u with
  | .ok s => .ok s
  | .error _ =>
    match strategyCorsProxy net t2 u with
    | .ok s => .ok s
    | .error _ => .error connectErrMsg

-- ## Concrete inputs used by witnesses and counterexamples

/-- A populated GVIZ cell. -/
def mkCellS (s : String) : Cell := some (some s.data)

/-- Cells of the record of claim C1: labels field `S, M/L`, stock `3.7`. -/
def cellsC1 : List Cell :=
  [mkCellS ("p1"), mkCellS ("Vestido"), mkCellS (""), mkCellS (""),
   mkCellS (""), mkCellS ("S, M/L"), mkCellS ("3.7")]

/-- The product the builder derives from `cellsC1` (ids drawn from the
supply in source evaluation order). -/
def pC1 : Product :=
  { id := ("p1").data, name := ("Vestido").data, description := []
    gender := ("unisex").data, imageUrl := [], price := []
    sizes := [{ size := ("S").data, units := mkUnits 0 3 },
              { size := ("M").data, units := mkUnits 3 3 },
              { size := ("L").data, units := mkUnits 6 3 }] }


-- ## Spec-side projections and conditions used in theorem statements

/-- A row's projected name field (column B). -/
def rowName (r : Row) : Str :=
  match r.c with
  | none => []
  | some cs => jsGetVal cs 1

/-- A row's projected description field (column C). -/
def rowDesc (r : Row) : Str :=
  match r.c with
  | none => []
  | some cs => jsGetVal cs 2

/-- Does the row survive the builder's filters: cells present, at least
two of them, non-empty name, name not containing the header caption? -/
def keepRowB (r : Row) : Bool :=
  match r.c with
  | none => false
  | some cs =>
    if cs.length < 2 then false
    else if (jsGetVal cs 1).isEmpty
        || containsSub (jsToUpper (jsGetVal cs 1)) headerCaption then false
    else true

/-- Rows on which the builder cannot throw: dropped rows, rows without
size labels, and rows whose floored quantity is a valid array length. -/
def rowSafeB (r : Row) : Bool :=
  match r.c with
  | none => true
  | some cs =>
    if cs.length < 2 then true
    else if (jsGetVal cs 1).isEmpty
        || containsSub (jsToUpper (jsGetVal cs 1)) headerCaption then true
    else (sizeLabels cs).isEmpty
      || (decide (0 ≤ stockFloor cs) && decide (stockFloor cs < 4294967296))

/-- The toggle resolves nothing at this product: either the product id
differs, or the bucket exists and no unit in it carries the unit id. -/
def toggleMissesB (productId : Str) (sizeIndex : Nat) (unitId : Str)
    (p : Product) : Bool :=
  if p.id = productId then
    match p.sizes.get? sizeIndex with
    | none => false
    | some s => s.units.all (fun u => decide (u.id ≠ unitId))
  else true

/-- Everything of a product except unit statuses: all scalar fields,
bucket labels in order, unit ids in order. -/
def frameProj (p : Product) :
    Str × Str × Str × Str × Str × Str × List Str × List (List Str) :=
  (p.id, p.name, p.description, p.gender, p.imageUrl, p.price,
   p.sizes.map ProductSize.size, p.sizes.map (fun s => s.units.map StockUnit.id))

/-- The status grid of a product: per bucket, per unit. -/
def statusProj (p : Product) : List (List UnitStatus) :=
  p.sizes.map (fun s => s.units.map StockUnit.status)

/-- Statuses of a unit list after the toggle: the matching ids get the
new status, the rest keep theirs. -/
def toggledStatuses (unitId : Str) (newStatus : UnitStatus)
    (us : List StockUnit) : List UnitStatus :=
  us.map (fun u => if u.id = unitId then newStatus else u.status)

/-- The status grid of a bucket list after toggling inside bucket `i`. -/
def bucketStatuses (unitId : Str) (newStatus : UnitStatus) :
    Nat → List ProductSize → List (List UnitStatus)
  | _, [] => []
  | 0, s :: rest =>
    toggledStatuses unitId newStatus s.units
      :: rest.map (fun z => z.units.map StockUnit.status)
  | Nat.succ k, s :: rest =>
    s.units.map StockUnit.status :: bucketStatuses unitId newStatus k rest

/-- The status grid of a product after the toggle: untouched unless the
product id matches, in which case only bucket `i` is rewritten. -/
def afterStatuses (productId : Str) (sizeIndex : Nat) (unitId : Str)
    (newStatus : UnitStatus) (p : Product) : List (List UnitStatus) :=
  if p.id = productId then bucketStatuses unitId newStatus sizeIndex p.sizes
  else statusProj p

-- ## Further concrete inputs for witnesses and counterexamples

/-- Record with a negative quantity and one size label (claim C2). -/
def cellsC2 : List Cell :=
  [mkCellS ("p2"), mkCellS ("Camisa"), mkCellS (""), mkCellS (""),
   mkCellS (""), mkCellS ("S"), mkCellS ("-1")]

/-- Record with duplicate size labels and quantity `2.9` (claim C2). -/
def cellsC2w : List Cell :=
  [mkCellS ("p3"), mkCellS ("Falda"), mkCellS (""), mkCellS (""),
   mkCellS (""), mkCellS ("M,M"), mkCellS ("2.9")]

/-- The product built from `cellsC2w`. -/
def pC2w : Product :=
  { id := ("p3").data, name := ("Falda").data, description := []
    gender := ("unisex").data, imageUrl := [], price := []
    sizes := [{ size := ("M").data, units := mkUnits 0 2 },
              { size := ("M").data, units := mkUnits 2 2 }] }

/-- Record with a negative quantity `-2.5` and two labels (claim C3). -/
def cellsC3bad : List Cell :=
  [mkCellS ("p4"), mkCellS ("Abrigo"), mkCellS (""), mkCellS (""),
   mkCellS (""), mkCellS ("A,B"), mkCellS ("-2.5")]

/-- A decoded payload containing the record of `cellsC3bad`. -/
def dataC3 : GvizData :=
  { table := some { rows := some [{ c := some cellsC3bad }] } }

/-- A safe row (quantity `1`, one label) used with an absent-cells row
(claim C3). -/
def cellsC3w : List Cell :=
  [mkCellS ("p5"), mkCellS ("Gorro"), mkCellS (""), mkCellS (""),
   mkCellS (""), mkCellS ("U"), mkCellS ("1")]

/-- A row list on which the builder is total (claim C3). -/
def rowsC3w : List Row := [{ c := some cellsC3w }, { c := none }]

/-- Snapshot with a product holding no buckets (claim C4). -/
def psC4 : List Product :=
  [{ id := ("p1").data, name := ("X").data, description := []
     gender := ("unisex").data, imageUrl := [], price := [], sizes := [] }]

/-- Snapshot where a toggle with an unknown unit id resolves a product
and a bucket but no unit (claim C4). -/
def psC4w : List Product :=
  [{ id := ("q1").data, name := ("Y").data, description := []
     gender := ("unisex").data, imageUrl := [], price := []
     sizes := [{ size := ("S").data
                 units := [{ id := ("u1").data, status := .available }] }] }]

/-- A header-only payload: decodes fine, yields zero products (claim C5). -/
def dataC5 : GvizData :=
  { table := some
      { rows := some ([{ c := some [mkCellS ("ID"), mkCellS ("NOMBRE PRODUCTO")] }]) } }

/-- A concrete `JSON.parse` accepting exactly the payload text `0`
(claim C5). -/
def decodeC5 (s : Str) : Except Str GvizData :=
  if s = ("0").data then .ok dataC5 else .error (("SyntaxError").data)

/-- Raw text whose envelope wraps the payload text `0` (claim C5). -/
def textC5 : Str := marker ++ ("0)").data

/-- A prior product kept across the failed refresh of claim C5. -/
def pPrevC5 : Product :=
  { id := ("old").data, name := ("Anterior").data, description := []
    gender := ("unisex").data, imageUrl := [], price := [], sizes := [] }

/-- Prior store state of claim C5. -/
def stC5 : StoreState := { products := [pPrevC5], error := none }

/-- Raw text without the wrapper marker (claim C6). -/
def textC6A : Str := ("not a gviz response").data

/-- Raw text with the marker and payload text `12` (claim C6). -/
def textC6B : Str := marker ++ ("12)").data

/-- Store state used by the claim C6 witness. -/
def stC6 : StoreState := { products := [], error := none }

/-- A decoder that always rejects (claim C6 exercises the path before
decoding). -/
def decodeC6 (_ : Str) : Except Str GvizData := .error (("SyntaxError").data)

/-- A network where every fetch throws (claim C7). -/
def netC7 (_ : Str) : Except Str NetResponse := .error (("NetworkError").data)

/-- Record with an unrecognized audience category (claim C9). -/
def cellsC9 : List Cell :=
  [mkCellS ("p9"), mkCellS ("Saco"), mkCellS (""), mkCellS ("Boy"),
   mkCellS (""), mkCellS (""), mkCellS ("")]

/-- The product built from `cellsC9`: category `boy`, outside the
`Gender` enumeration. -/
def pC9 : Product :=
  { id := ("p9").data, name := ("Saco").data, description := []
    gender := ("boy").data, imageUrl := [], price := [], sizes := [] }

/-- Two-product snapshot whose second product has two buckets (claim
C10). -/
def psC10 : List Product :=
  [{ id := ("a").data, name := ("Uno").data, description := []
     gender := ("unisex").data, imageUrl := [], price := []
     sizes := [{ size := ("S").data
                 units := [{ id := ("u1").data, status := .available }] }] },
   { id := ("b").data, name := ("Dos").data, description := []
     gender := ("unisex").data, imageUrl := [], price := []
     sizes := [{ size := ("S").data
                 units := [{ id := ("u2").data, status := .available }] },
               { size := ("M").data
                 units := [{ id := ("u3").data, status := .available },
                           { id := ("u4").data, status := .sold }] }] }]

/-- `psC10` after toggling unit `u3` of bucket 1 of product `b` to
`sold`. -/
def outC10 : List Product :=
  [{ id := ("a").data, name := ("Uno").data, description := []
     gender := ("unisex").data, imageUrl := [], price := []
     sizes := [{ size := ("S").data
                 units := [{ id := ("u1").data, status := .available }] }] },
   { id := ("b").data, name := ("Dos").data, description := []
     gender := ("unisex").data, imageUrl := [], price := []
     sizes := [{ size := ("S").data
                 units := [{ id := ("u2").data, status := .available }] },
               { size := ("M").data
                 units := [{ id := ("u3").data, status := .sold },
                           { id := ("u4").data, status := .sold }] }] }]


/-- Payload wrapping the safe rows of claim C3. -/
def dataC3w : GvizData := { table := some { rows := some rowsC3w } }

/-- A surviving record with no size labels (claim C8). -/
def cellsC8a : List Cell :=
  [mkCellS ("c1"), mkCellS ("Blusa"), mkCellS (""), mkCellS (""),
   mkCellS (""), mkCellS (""), mkCellS ("")]

/-- A surviving record with an empty identifier (claim C8). -/
def cellsC8b : List Cell :=
  [mkCellS (""), mkCellS ("Bota"), mkCellS ("Linda"), mkCellS (""),
   mkCellS (""), mkCellS (""), mkCellS ("")]

/-- Rows mixing a header row, a one-cell row, an empty-name row, an
absent-cells row and two surviving records (claim C8). -/
def rowsC8 : List Row :=
  [{ c := some [mkCellS ("ID"), mkCellS ("NOMBRE PRODUCTO")] },
   { c := some [mkCellS ("solo")] },
   { c := some [mkCellS ("x"), mkCellS ("")] },
   { c := none },
   { c := some cellsC8a },
   { c := some cellsC8b }]

/-- Payload wrapping `rowsC8` (claim C8). -/
def dataC8 : GvizData := { table := some { rows := some rowsC8 } }

/-- The two products built from `rowsC8`, in source order (claim C8). -/
def psC8 : List Product :=
  [{ id := ("c1").data, name := ("Blusa").data, description := []
     gender := ("unisex").data, imageUrl := [], price := [], sizes := [] },
   { id := genId 0, name := ("Bota").data, description := ("Linda").data
     gender := ("unisex").data, imageUrl := [], price := [], sizes := [] }]

-- ## Helper lemmas

theorem map_eq_replicate_of {α β : Type} (l : List α) (f : α → β) (b : β)
    (h : ∀ a ∈ l, f a = b) : l.map f = List.replicate l.length b := by
  induction l with
  | nil => rfl
  | cons a t ih =>
    simp only [List.map_cons, List.length_cons, List.replicate_succ]
    rw [h a (by simp), ih (fun x hx => h x (by simp [hx]))]

theorem mkUnits_length (c n : Nat) : (mkUnits c n).length = n := by
  simp [mkUnits]

theorem mkUnits_statuses (c n : Nat) :
    (mkUnits c n).map StockUnit.status = List.replicate n UnitStatus.available := by
  have h := map_eq_replicate_of (List.range n)
    (StockUnit.status ∘ fun k => { id := genId (c + k), status := .available })
    UnitStatus.available (fun a _ => rfl)
  rw [List.length_range] at h
  simp only [mkUnits, List.map_map]
  exact h

theorem buildSizes_ok_spec (labels : List Str) :
    ∀ (counter : Nat) (n : Int) (ss : List ProductSize) (c' : Nat),
    buildSizes counter labels n = .ok (ss, c') →
    ss.map ProductSize.size = labels ∧
    ss.map (fun s => s.units.length) = List.replicate labels.length n.toNat ∧
    ss.map (fun s => s.units.map StockUnit.status)
      = List.replicate labels.length (List.replicate n.toNat UnitStatus.available) := by
  induction labels with
  | nil =>
    intro counter n ss c' h
    simp only [buildSizes] at h
    cases h
    simp
  | cons l rest ih =>
    intro counter n ss c' h
    simp only [buildSizes] at h
    split at h
    · cases h
    · cases hb : buildSizes (counter + n.toNat) rest n with
      | error e => rw [hb] at h; cases h
      | ok pair =>
        rw [hb] at h
        cases h
        obtain ⟨h1, h2, h3⟩ := ih (counter + n.toNat) n pair.1 pair.2 (by rw [hb])
        refine ⟨?_, ?_, ?_⟩
        · simp [h1]
        · simp [h2, mkUnits_length, List.replicate_succ]
        · simp [h3, mkUnits_statuses, List.replicate_succ]

theorem buildSizes_ok_nonneg (l : Str) (rest : List Str) (counter : Nat) (n : Int)
    (ss : List ProductSize) (c' : Nat)
    (h : buildSizes counter (l :: rest) n = .ok (ss, c')) :
    0 ≤ n ∧ n < 4294967296 := by
  simp only [buildSizes] at h
  split at h
  · cases h
  · next hcond =>
    push_neg at hcond
    exact ⟨hcond.1, hcond.2⟩

theorem parseRow_ok_some (counter : Nat) (cs : List Cell) (p : Product) (c2 : Nat)
    (h : parseRow counter { c := some cs } = .ok (some p, c2)) :
    ∃ c1, buildSizes counter (sizeLabels cs) (stockFloor cs) = .ok (p.sizes, c1) ∧
      p.name = jsGetVal cs 1 ∧
      p.description = jsGetVal cs 2 ∧
      p.gender = (if (jsToLower (jsGetVal cs 3)).isEmpty then ("unisex").data
                  else jsToLower (jsGetVal cs 3)) ∧
      p.imageUrl = jsGetVal cs 4 ∧
      p.price = [] ∧
      ¬ cs.length < 2 ∧
      ¬ ((jsGetVal cs 1).isEmpty
          || containsSub (jsToUpper (jsGetVal cs 1)) headerCaption) = true := by
  simp only [parseRow] at h
  split at h
  · simp at h
  · split at h
    · simp at h
    · next h1 h2 =>
      cases hb : buildSizes counter (sizeLabels cs) (stockFloor cs) with
      | error e => rw [hb] at h; cases h
      | ok pair =>
        rw [hb] at h
        simp only [Except.ok.injEq, Prod.mk.injEq, Option.some.injEq] at h
        obtain ⟨hp, hc⟩ := h
        subst hp
        exact ⟨pair.2, rfl, rfl, rfl, rfl, rfl, rfl, h1, h2⟩

/-- Claim C1: the builder splits the size-labels field on comma or
slash, trims each token, drops empty tokens, does not deduplicate, and
gives every resulting bucket the same unit count (the floored row
quantity), every unit starting `available`.  The witness instantiates
the concrete case: labels `S, M/L` with stock `3.7` yield buckets
`S`, `M`, `L` with exactly 3 available units each. -/
theorem size_split_spec (counter : Nat) (cs : List Cell) (p : Product) (c2 : Nat)
    (h : parseRow counter { c := some cs } = .ok (some p, c2)) :
    p.sizes.map ProductSize.size = sizeLabels cs ∧
    p.sizes.map (fun s => s.units.length)
      = List.replicate (sizeLabels cs).length (stockFloor cs).toNat ∧
    p.sizes.map (fun s => s.units.map StockUnit.status)
      = List.replicate (sizeLabels cs).length
          (List.replicate (stockFloor cs).toNat UnitStatus.available) := by
  obtain ⟨c1, hb, -⟩ := parseRow_ok_some counter cs p c2 h
  exact buildSizes_ok_spec (sizeLabels cs) counter (stockFloor cs) p.sizes c1 hb

/-- Witness for C1: size-labels `S, M/L` with stock-quantity `3.7`
yield exactly the buckets `S`, `M`, `L`, each with 3 units, all
`available`. -/
theorem size_split_spec_witness :
    pC1.sizes.map ProductSize.size = [("S").data, ("M").data, ("L").data] ∧
    pC1.sizes.map (fun s => s.units.length) = [3, 3, 3] ∧
    pC1.sizes.map (fun s => s.units.map StockUnit.status)
      = [List.replicate 3 UnitStatus.available, List.replicate 3 UnitStatus.available,
         List.replicate 3 UnitStatus.available] := by
  have h := size_split_spec 0 cellsC1 pC1 9 (by decide)
  exact ⟨h.1.trans (by decide), h.2.1.trans (by decide), h.2.2.trans (by decide)⟩

/-- Claim C2 counterexample: a record with stock-quantity `-1` and one
size label is not clamped to zero — the builder throws a RangeError
(`Array(-1)` is an invalid array length). -/
theorem stock_negative_throws_cx :
    parseRow 0 { c := some cellsC2 } = .error rangeErrMsg := by decide

/-- Claim C2 (amended): the stock field is float-parsed with zero on
failure and every bucket receives the floored quantity as unit count;
but a negative (or `≥ 2^32`) floored quantity is not clamped — a record
that actually builds with at least one bucket must have had its floored
quantity in `[0, 2^32)`, and otherwise the builder throws. -/
theorem stock_floor_spec (counter : Nat) (cs : List Cell) (p : Product) (c2 : Nat)
    (h : parseRow counter { c := some cs } = .ok (some p, c2)) :
    p.sizes.map (fun s => s.units.length)
      = List.replicate (sizeLabels cs).length (stockFloor cs).toNat ∧
    (p.sizes = [] ∨ (0 ≤ stockFloor cs ∧ stockFloor cs < 4294967296)) := by
  obtain ⟨c1, hb, -⟩ := parseRow_ok_some counter cs p c2 h
  have hs := buildSizes_ok_spec (sizeLabels cs) counter (stockFloor cs) p.sizes c1 hb
  refine ⟨hs.2.1, ?_⟩
  cases hsz : p.sizes with
  | nil => exact Or.inl rfl
  | cons a l =>
    right
    have hlab : sizeLabels cs ≠ [] := by
      intro hl
      rw [hl] at hb
      simp only [buildSizes, Except.ok.injEq, Prod.mk.injEq] at hb
      rw [hsz] at hb
      simp at hb
    obtain ⟨l0, rest, hl⟩ := List.exists_cons_of_ne_nil hlab
    rw [hl] at hb
    exact buildSizes_ok_nonneg l0 rest counter (stockFloor cs) p.sizes c1 hb

/-- Witness for the amended C2: the duplicate-label record with stock
`2.9` builds two buckets of 2 units each, with the floored quantity in
range. -/
theorem stock_floor_spec_witness :
    pC2w.sizes.map (fun s => s.units.length) = [2, 2] ∧
    (pC2w.sizes = [] ∨ (0 ≤ stockFloor cellsC2w ∧ stockFloor cellsC2w < 4294967296)) := by
  have h := stock_floor_spec 0 cellsC2w pC2w 4 (by decide)
  exact ⟨h.1.trans (by decide), h.2⟩

/-- Claim C9 counterexample: the raw category `Boy` is stored as `boy`,
which is none of the three enumeration values — the builder does not
default unrecognized non-empty categories to `unisex`. -/
theorem gender_outside_enum_cx :
    parseRow 0 { c := some cellsC9 } = .ok (some pC9, 0) ∧
    pC9.gender ≠ ("niño").data ∧ pC9.gender ≠ ("niña").data ∧
    pC9.gender ≠ ("unisex").data := by decide

/-- Claim C9 (amended): the stored audience category is the lower-cased
raw value, defaulting to `unisex` only when the lower-cased value is
empty; unrecognized non-empty values are stored as-is, so the category
may fall outside the enumeration. -/
theorem gender_lowercase_spec (counter : Nat) (cs : List Cell) (p : Product) (c2 : Nat)
    (h : parseRow counter { c := some cs } = .ok (some p, c2)) :
    p.gender = (if (jsToLower (jsGetVal cs 3)).isEmpty then ("unisex").data
                else jsToLower (jsGetVal cs 3)) := by
  obtain ⟨c1, -, -, -, hg, -⟩ := parseRow_ok_some counter cs p c2 h
  exact hg

/-- Witness for the amended C9 at the `Boy` record. -/
theorem gender_lowercase_spec_witness :
    pC9.gender = (if (jsToLower (jsGetVal cellsC9 3)).isEmpty then ("unisex").data
                  else jsToLower (jsGetVal cellsC9 3)) :=
  gender_lowercase_spec 0 cellsC9 pC9 0 (by decide)

theorem parseRow_ok_none (counter : Nat) (r : Row) (c2 : Nat)
    (h : parseRow counter r = .ok (none, c2)) : keepRowB r = false := by
  obtain ⟨c?⟩ := r
  cases c? with
  | none => rfl
  | some cs =>
    simp only [parseRow] at h
    split at h
    · next h1 => simp only [keepRowB]; rw [if_pos h1]
    · next h1 =>
      split at h
      · next h2 => simp only [keepRowB]; rw [if_neg h1, if_pos h2]
      · next h2 =>
        exfalso
        cases hb : buildSizes counter (sizeLabels cs) (stockFloor cs) with
        | error e => rw [hb] at h; cases h
        | ok pair => rw [hb] at h; simp at h

theorem parseRow_some_keep (counter : Nat) (r : Row) (p : Product) (c2 : Nat)
    (h : parseRow counter r = .ok (some p, c2)) :
    keepRowB r = true ∧ p.name = rowName r ∧ p.description = rowDesc r := by
  obtain ⟨c?⟩ := r
  cases c? with
  | none => simp only [parseRow] at h; simp at h
  | some cs =>
    obtain ⟨c1, hb, hn, hd, hg, hu, hp, h1, h2⟩ := parseRow_ok_some counter cs p c2 h
    refine ⟨?_, hn, hd⟩
    simp only [keepRowB]
    rw [if_neg h1, if_neg h2]

theorem parseRows_filter_names (rows : List Row) :
    ∀ (counter : Nat) (ps : List Product), parseRows counter rows = .ok ps →
      ps.map Product.name = (rows.filter keepRowB).map rowName ∧
      ps.map Product.description = (rows.filter keepRowB).map rowDesc := by
  induction rows with
  | nil =>
    intro counter ps h
    simp only [parseRows] at h
    simp only [Except.ok.injEq] at h
    subst h
    simp
  | cons r rs ih =>
    intro counter ps h
    simp only [parseRows] at h
    cases hr : parseRow counter r with
    | error e => rw [hr] at h; cases h
    | ok pc =>
      obtain ⟨p?, c'⟩ := pc
      rw [hr] at h
      dsimp only at h
      cases hrs : parseRows c' rs with
      | error e => rw [hrs] at h; cases h
      | ok tail =>
        rw [hrs] at h
        obtain ⟨ih1, ih2⟩ := ih c' tail hrs
        cases p? with
        | none =>
          simp only [Except.ok.injEq] at h
          subst h
          have hk := parseRow_ok_none counter r c' hr
          constructor <;> simp [List.filter_cons, hk, ih1, ih2]
        | some p =>
          simp only [Except.ok.injEq] at h
          subst h
          obtain ⟨hk, hn, hd⟩ := parseRow_some_keep counter r p c' hr
          constructor <;> simp [List.filter_cons, hk, hn, hd, ih1, ih2]

/-- Claim C8: rows with an empty projected name, rows whose upper-cased
name contains the header caption, and rows with fewer than two cells
(or no cell array) produce no Product; the surviving rows' products
appear in source row order (name and description sequences match the
filtered row sequence). -/
theorem header_filter_spec (dta : GvizData) (ps : List Product)
    (h : parseGvizData dta = .ok ps) :
    ps.map Product.name
      = (((dta.table.bind GvizTable.rows).getD []).filter keepRowB).map rowName ∧
    ps.map Product.description
      = (((dta.table.bind GvizTable.rows).getD []).filter keepRowB).map rowDesc :=
  parseRows_filter_names ((dta.table.bind GvizTable.rows).getD []) 0 ps h

/-- Witness for C8: of six rows (header, one-cell, empty-name, missing
cells, and two real records) exactly the two real records survive, in
order. -/
theorem header_filter_spec_witness :
    psC8.map Product.name = [("Blusa").data, ("Bota").data] ∧
    psC8.map Product.description = [[], ("Linda").data] := by
  have h := header_filter_spec dataC8 psC8 (by decide)
  exact ⟨h.1.trans (by decide), h.2.trans (by decide)⟩

theorem buildSizes_isOk (labels : List Str) :
    ∀ (counter : Nat) (n : Int), 0 ≤ n → n < 4294967296 →
    ∃ pair, buildSizes counter labels n = .ok pair := by
  induction labels with
  | nil => intro counter n _ _; exact ⟨([], counter), rfl⟩
  | cons l rest ih =>
    intro counter n hge hlt
    obtain ⟨pair, hp⟩ := ih (counter + n.toNat) n hge hlt
    refine ⟨({ size := l, units := mkUnits counter n.toNat } :: pair.1, pair.2), ?_⟩
    simp only [buildSizes]
    rw [if_neg (by omega), hp]

theorem parseRow_isOk_of_safe (counter : Nat) (r : Row) (hs : rowSafeB r = true) :
    (parseRow counter r).isOk = true := by
  obtain ⟨c?⟩ := r
  cases c? with
  | none => rfl
  | some cs =>
    simp only [rowSafeB] at hs
    simp only [parseRow]
    split
    · rfl
    · next h1 =>
      split
      · rfl
      · next h2 =>
        rw [if_neg h1, if_neg h2] at hs
        simp only [Bool.or_eq_true, Bool.and_eq_true, decide_eq_true_eq,
          List.isEmpty_iff] at hs
        rcases hs with hemp | ⟨hge, hlt⟩
        · rw [hemp]
          rfl
        · obtain ⟨pair, hp⟩ := buildSizes_isOk (sizeLabels cs) counter (stockFloor cs) hge hlt
          rw [hp]
          rfl

/-- Claim C3 counterexample: the builder is not total — a decoded row
with stock-quantity `-2.5` and size labels `A,B` makes `parseGvizData`
throw a RangeError instead of dropping the record. -/
theorem build_throws_cx : parseGvizData dataC3 = .error rangeErrMsg := by decide

theorem parseRows_isOk_of_safe (rows : List Row) :
    ∀ (counter : Nat), rows.all rowSafeB = true →
    (parseRows counter rows).isOk = true := by
  induction rows with
  | nil => intro counter _; rfl
  | cons r rs ih =>
    intro counter hall
    simp only [List.all_cons, Bool.and_eq_true] at hall
    simp only [parseRows]
    have h1 := parseRow_isOk_of_safe counter r hall.1
    cases hr : parseRow counter r with
    | error e => rw [hr] at h1; simp [Except.isOk, Except.toBool] at h1
    | ok pc =>
      obtain ⟨p?, c'⟩ := pc
      dsimp only
      have h2 := ih c' hall.2
      cases hrs : parseRows c' rs with
      | error e => rw [hrs] at h2; simp [Except.isOk, Except.toBool] at h2
      | ok tail => rfl

/-- Claim C3 (amended): the builder never fails on decoded rows in
which every row is either dropped by the filters, has no size labels,
or has its floored quantity in `[0, 2^32)`; outside that a row with a
negative (or over-large) floored quantity and at least one label
escalates a RangeError to the cycle level. -/
theorem build_total_spec (dta : GvizData)
    (hall : ((dta.table.bind GvizTable.rows).getD []).all rowSafeB = true) :
    (parseGvizData dta).isOk = true :=
  parseRows_isOk_of_safe ((dta.table.bind GvizTable.rows).getD []) 0 hall

/-- Witness for the amended C3: a safe record plus an absent-cells row
parse without failure. -/
theorem build_total_spec_witness : (parseGvizData dataC3w).isOk = true :=
  build_total_spec dataC3w (by decide)

theorem map_toggle_id (unitId : Str) (newStatus : UnitStatus) (us : List StockUnit)
    (h : ∀ u ∈ us, u.id ≠ unitId) : us.map (toggleUnit unitId newStatus) = us := by
  induction us with
  | nil => rfl
  | cons u t ih =>
    simp only [List.map_cons]
    rw [show toggleUnit unitId newStatus u = u from by
          simp only [toggleUnit]; rw [if_neg (h u (by simp))],
        ih (fun x hx => h x (by simp [hx]))]

theorem set_get_self (l : List ProductSize) :
    ∀ (i : Nat) (s : ProductSize), l.get? i = some s → l.set i s = l := by
  induction l with
  | nil => intro i s hg; cases hg
  | cons a t ih =>
    intro i s hg
    cases i with
    | zero =>
      simp only [List.get?_cons_zero, Option.some.injEq] at hg
      subst hg
      rfl
    | succ k =>
      simp only [List.get?_cons_succ] at hg
      simp only [List.set]
      rw [ih k s hg]

/-- Claim C4 counterexample: with a product whose bucket index does not
resolve, the toggle does not fail silently — `newSizes[sizeIndex].units`
throws a TypeError. -/
theorem toggle_bad_bucket_cx :
    updateProductStock psC4 (("p1").data) 0 (("u").data) UnitStatus.sold
      = .error typeErrMsg := by decide

/-- Claim C4 (amended): the toggle is a silent no-op when the product id
matches no product, or when the product and bucket resolve but the unit
id matches no unit in that bucket; but a resolving product id with an
out-of-range bucket index throws instead of no-oping. -/
theorem toggle_noop_spec (ps : List Product) (productId : Str) (sizeIndex : Nat)
    (unitId : Str) (newStatus : UnitStatus)
    (hall : ps.all (toggleMissesB productId sizeIndex unitId) = true) :
    updateProductStock ps productId sizeIndex unitId newStatus = .ok ps := by
  induction ps with
  | nil => rfl
  | cons p rest ih =>
    simp only [List.all_cons, Bool.and_eq_true] at hall
    simp only [updateProductStock, mapExcept]
    have hp : updateProduct productId sizeIndex unitId newStatus p = .ok p := by
      have hm := hall.1
      simp only [toggleMissesB] at hm
      simp only [updateProduct]
      split
      · rfl
      · next hne =>
        have heq : p.id = productId := not_not.mp hne
        rw [if_pos heq] at hm
        cases hg : p.sizes.get? sizeIndex with
        | none => rw [hg] at hm; dsimp only at hm; cases hm
        | some s =>
          rw [hg] at hm
          dsimp only at hm ⊢
          have hids : ∀ u ∈ s.units, u.id ≠ unitId := by
            simpa [List.all_eq_true, decide_eq_true_eq] using hm
          rw [map_toggle_id unitId newStatus s.units hids]
          show Except.ok { p with sizes := p.sizes.set sizeIndex s } = .ok p
          rw [set_get_self p.sizes sizeIndex s hg]
    rw [hp]
    have ihr := ih hall.2
    simp only [updateProductStock] at ihr
    rw [ihr]

/-- Witness for the amended C4: toggling an unknown unit id against a
resolving product and bucket returns the snapshot unchanged. -/
theorem toggle_noop_spec_witness :
    updateProductStock psC4w (("q1").data) 0 (("zz").data) UnitStatus.sold
      = .ok psC4w :=
  toggle_noop_spec psC4w (("q1").data) 0 (("zz").data) UnitStatus.sold (by decide)

theorem toggleUnit_id (unitId : Str) (newStatus : UnitStatus) (u : StockUnit) :
    (toggleUnit unitId newStatus u).id = u.id := by
  simp only [toggleUnit]
  split <;> rfl

theorem toggleUnit_status (unitId : Str) (newStatus : UnitStatus) (u : StockUnit) :
    (toggleUnit unitId newStatus u).status
      = if u.id = unitId then newStatus else u.status := by
  simp only [toggleUnit]
  split <;> rfl

theorem map_toggle_ids (unitId : Str) (newStatus : UnitStatus) (us : List StockUnit) :
    (us.map (toggleUnit unitId newStatus)).map StockUnit.id = us.map StockUnit.id := by
  induction us with
  | nil => rfl
  | cons u t ih => simp only [List.map_cons, toggleUnit_id, ih]

theorem map_status_toggle (unitId : Str) (newStatus : UnitStatus) (us : List StockUnit) :
    (us.map (toggleUnit unitId newStatus)).map StockUnit.status
      = toggledStatuses unitId newStatus us := by
  induction us with
  | nil => rfl
  | cons u t ih =>
    simp only [List.map_cons, toggledStatuses, toggleUnit_status]
    rw [show (t.map (toggleUnit unitId newStatus)).map StockUnit.status
          = toggledStatuses unitId newStatus t from ih]
    simp [toggledStatuses]

theorem map_set_of_get (l : List ProductSize) {β : Type} (f : ProductSize → β) :
    ∀ (i : Nat) (s t : ProductSize), l.get? i = some s → f t = f s →
    (l.set i t).map f = l.map f := by
  induction l with
  | nil => intro i s t hg _; cases hg
  | cons a rest ih =>
    intro i s t hg hf
    cases i with
    | zero =>
      simp only [List.get?_cons_zero, Option.some.injEq] at hg
      subst hg
      simp only [List.set, List.map_cons, hf]
    | succ k =>
      simp only [List.get?_cons_succ] at hg
      simp only [List.set, List.map_cons]
      rw [ih k s t hg hf]

theorem statuses_set (unitId : Str) (newStatus : UnitStatus) (l : List ProductSize) :
    ∀ (i : Nat) (s : ProductSize), l.get? i = some s →
    (l.set i { size := s.size, units := s.units.map (toggleUnit unitId newStatus) }).map
        (fun z => z.units.map StockUnit.status)
      = bucketStatuses unitId newStatus i l := by
  induction l with
  | nil => intro i s hg; cases hg
  | cons a rest ih =>
    intro i s hg
    cases i with
    | zero =>
      simp only [List.get?_cons_zero, Option.some.injEq] at hg
      subst hg
      simp only [List.set, List.map_cons, bucketStatuses]
      rw [map_status_toggle]
    | succ k =>
      simp only [List.get?_cons_succ] at hg
      simp only [List.set, List.map_cons, bucketStatuses]
      rw [ih k s hg]

theorem updateProduct_frame (productId : Str) (sizeIndex : Nat) (unitId : Str)
    (newStatus : UnitStatus) (p q : Product)
    (h : updateProduct productId sizeIndex unitId newStatus p = .ok q) :
    frameProj q = frameProj p ∧
    statusProj q = afterStatuses productId sizeIndex unitId newStatus p := by
  simp only [updateProduct] at h
  split at h
  · next hne =>
    simp only [Except.ok.injEq] at h
    subst h
    exact ⟨rfl, by simp only [afterStatuses, if_neg hne]⟩
  · next hnn =>
    have heq : p.id = productId := not_not.mp hnn
    cases hg : p.sizes.get? sizeIndex with
    | none => rw [hg] at h; cases h
    | some s =>
      rw [hg] at h
      dsimp only at h
      simp only [Except.ok.injEq] at h
      subst h
      constructor
      · have h1 := map_set_of_get p.sizes ProductSize.size sizeIndex s
          { size := s.size, units := s.units.map (toggleUnit unitId newStatus) } hg rfl
        have h2 := map_set_of_get p.sizes (fun z => z.units.map StockUnit.id) sizeIndex s
          { size := s.size, units := s.units.map (toggleUnit unitId newStatus) } hg
          (map_toggle_ids unitId newStatus s.units)
        simp only [frameProj, h1, h2]
      · simp only [statusProj, afterStatuses, if_pos heq]
        exact statuses_set unitId newStatus p.sizes sizeIndex s hg

/-- Claim C10: when the toggle succeeds, at most the statuses of units
whose id matches change (to the given status); every other product,
every other bucket, every bucket label, every unit id, every unit-list
length and every non-sizes field is unchanged, and the snapshot length
is preserved. -/
theorem toggle_frame_spec (ps : List Product) (productId : Str) (sizeIndex : Nat)
    (unitId : Str) (newStatus : UnitStatus) (out : List Product)
    (h : updateProductStock ps productId sizeIndex unitId newStatus = .ok out) :
    out.length = ps.length ∧
    out.map frameProj = ps.map frameProj ∧
    out.map statusProj = ps.map (afterStatuses productId sizeIndex unitId newStatus) := by
  induction ps generalizing out with
  | nil =>
    simp only [updateProductStock, mapExcept, Except.ok.injEq] at h
    subst h
    exact ⟨rfl, rfl, rfl⟩
  | cons p rest ih =>
    simp only [updateProductStock, mapExcept] at h
    cases hp : updateProduct productId sizeIndex unitId newStatus p with
    | error e => rw [hp] at h; cases h
    | ok q =>
      rw [hp] at h
      dsimp only at h
      cases hrest : mapExcept (updateProduct productId sizeIndex unitId newStatus) rest with
      | error e => rw [hrest] at h; cases h
      | ok qs =>
        rw [hrest] at h
        simp only [Except.ok.injEq] at h
        subst h
        obtain ⟨hf, hs⟩ := updateProduct_frame productId sizeIndex unitId newStatus p q hp
        obtain ⟨ihl, ihf, ihs⟩ := ih qs hrest
        refine ⟨by simp [ihl], ?_, ?_⟩
        · simp only [List.map_cons, hf, ihf]
        · simp only [List.map_cons, hs, ihs]

/-- Witness for C10 on a concrete two-product snapshot: toggling unit
`u3` of bucket 1 of product `b` to sold. -/
theorem toggle_frame_spec_witness :
    outC10.length = psC10.length ∧
    outC10.map frameProj = psC10.map frameProj ∧
    outC10.map statusProj
      = psC10.map (afterStatuses (("b").data) 1 (("u3").data) UnitStatus.sold) :=
  toggle_frame_spec psC10 (("b").data) 1 (("u3").data) UnitStatus.sold outC10 (by decide)

/-- Claim C5: a cycle that decodes successfully but yields zero
Products keeps the previous snapshot and reports the distinct
empty-result error; only a non-empty build replaces the snapshot (and
then fully overwrites it, clearing the error). -/
theorem snapshot_replace_spec (decode : Str → Except Str GvizData) (text : Str)
    (st : StoreState) (i : Nat) (dat : GvizData) (ps : List Product)
    (h1 : idxOfSub text marker = some i)
    (h2 : decode (jsSubstring text ((i : Int) + 39) (lastParenIdx text)) = .ok dat)
    (h3 : parseGvizData dat = .ok ps) :
    processRawText decode text st =
      if ps.length = 0 then { products := st.products, error := some emptyResultMsg }
      else { products := ps, error := none } := by
  simp only [processRawText, h1, h2, h3]
  by_cases hz : ps.length = 0
  · rw [if_pos hz, if_neg (by omega)]
  · rw [if_neg hz, if_pos (by omega)]

/-- Witness for C5: a header-only sheet decodes to zero products; the
store keeps the prior product and reports the empty-result message. -/
theorem snapshot_replace_spec_witness :
    processRawText decodeC5 textC5 stC5
      = { products := stC5.products, error := some emptyResultMsg } := by
  have h := snapshot_replace_spec decodeC5 textC5 stC5 0 dataC5 []
    (by decide) (by decide) (by decide)
  simpa using h

theorem startsWithL_le (s : Str) : ∀ pat : Str, startsWithL s pat = true →
    pat.length ≤ s.length := by
  induction s with
  | nil =>
    intro pat h
    cases pat with
    | nil => exact Nat.le_refl 0
    | cons d u => cases h
  | cons a t ih =>
    intro pat h
    cases pat with
    | nil => exact Nat.zero_le _
    | cons d u =>
      simp only [startsWithL, Bool.and_eq_true] at h
      have := ih u h.2
      simp only [List.length_cons]
      omega

theorem idxOfSub_le (s : Str) : ∀ (pat : Str) (i : Nat), idxOfSub s pat = some i →
    i + pat.length ≤ s.length := by
  induction s with
  | nil =>
    intro pat i h
    simp only [idxOfSub] at h
    split at h
    · next hp =>
      simp only [Option.some.injEq] at h
      subst h
      simp [List.isEmpty_iff.mp hp]
    · cases h
  | cons a t ih =>
    intro pat i h
    simp only [idxOfSub] at h
    split at h
    · next hsw =>
      simp only [Option.some.injEq] at h
      subst h
      simpa using startsWithL_le (a :: t) pat hsw
    · cases hj : idxOfSub t pat with
      | none => rw [hj] at h; cases h
      | some j =>
        rw [hj] at h
        simp only [Option.map, Option.some.injEq] at h
        subst h
        have := ih pat j hj
        simp only [List.length_cons]
        omega

theorem lastIdxOfChar_lt (s : Str) (ch : Char) (p : Nat)
    (h : lastIdxOfChar s ch = some p) : p < s.length := by
  cases s with
  | nil => exact Option.noConfusion h
  | cons a t =>
    simp only [lastIdxOfChar] at h
    cases hf : ((a :: t).reverse).findIdx? (fun x => decide (x = ch)) with
    | none => rw [hf] at h; cases h
    | some j =>
      rw [hf] at h
      simp only [Option.some.injEq] at h
      subst h
      simp only [List.length_cons]
      omega

theorem jsSubstring_nat (s : Str) (a b : Nat) (hab : a ≤ b) (hb : b ≤ s.length) :
    jsSubstring s (a : Int) (b : Int) = (s.drop a).take (b - a) := by
  simp only [jsSubstring]
  have h1 : (max 0 (min (a : Int) (s.length : Int))).toNat = a := by omega
  have h2 : (max 0 (min (b : Int) (s.length : Int))).toNat = b := by omega
  rw [h1, h2, Nat.min_eq_left hab, Nat.max_eq_right hab]

/-- Claim C6: raw text lacking the wrapper marker anywhere makes the
cycle fail with the unexpected-response error, whatever the decoder
would say; with the marker present at first index `i` and the last
closing parenthesis at `p ≥ i + 39`, the decoded substring is exactly
the text between offset `i + 39` and that parenthesis. -/
theorem envelope_spec (text : Str) (decode : Str → Except Str GvizData)
    (st : StoreState) (i p : Nat) :
    (idxOfSub text marker = none →
      processRawText decode text st
        = { products := st.products, error := some unexpectedRespMsg }) ∧
    (idxOfSub text marker = some i → lastIdxOfChar text ')' = some p →
      i + 39 ≤ p →
      extractEnvelope text = some ((text.drop (i + 39)).take (p - (i + 39)))) := by
  constructor
  · intro h
    simp only [processRawText, h]
  · intro h1 h2 h3
    have hi : i + marker.length ≤ text.length := idxOfSub_le text marker i h1
    have hm : marker.length = 39 := by decide
    rw [hm] at hi
    have hp : p < text.length := lastIdxOfChar_lt text ')' p h2
    simp only [extractEnvelope, h1, lastParenIdx, h2]
    rw [show (i : Int) + 39 = ((i + 39 : Nat) : Int) from by push_cast; ring]
    rw [jsSubstring_nat text (i + 39) p h3 (by omega)]

/-- Witness for C6: marker-less text surfaces the unexpected-response
error, and a marked text with payload `12` extracts exactly `12`. -/
theorem envelope_spec_witness :
    processRawText decodeC6 textC6A stC6
      = { products := stC6.products, error := some unexpectedRespMsg } ∧
    extractEnvelope textC6B = some (("12").data) := by
  constructor
  · exact (envelope_spec textC6A decodeC6 stC6 0 0).1 (by decide)
  · exact ((envelope_spec textC6B decodeC6 stC6 0 41).2
      (by decide) (by decide) (by decide)).trans (by decide)

/-- Claim C7: the AllOrigins strategy is tried first; when it fails the
CorsProxy strategy is attempted with the same logical feed URL, and its
success is returned; a retrieval error surfaces only when both
strategies failed, and the surfaced message is the fixed aggregated
connectivity/sharing guidance, not either underlying exception. -/
theorem retrieve_fallback_spec (net : Str → Except Str NetResponse) (t1 t2 : Nat)
    (u : Str) (e1 e2 e s : Str) :
    (strategyAllOrigins net t1 u = .error e1 → strategyCorsProxy net t2 u = .ok s →
      retrieveRaw net t1 t2 u = .ok s) ∧
    (strategyAllOrigins net t1 u = .error e1 → strategyCorsProxy net t2 u = .error e2 →
      retrieveRaw net t1 t2 u = .error connectErrMsg) ∧
    (retrieveRaw net t1 t2 u = .error e →
      (strategyAllOrigins net t1 u).isOk = false ∧
      (strategyCorsProxy net t2 u).isOk = false ∧ e = connectErrMsg) := by
  refine ⟨?_, ?_, ?_⟩
  · intro h1 h2
    simp only [retrieveRaw, h1, h2]
  · intro h1 h2
    simp only [retrieveRaw, h1, h2]
  · intro h
    simp only [retrieveRaw] at h
    cases ha : strategyAllOrigins net t1 u with
    | ok v => rw [ha] at h; cases h
    | error x =>
      rw [ha] at h
      dsimp only at h
      cases hc : strategyCorsProxy net t2 u with
      | ok v => rw [hc] at h; cases h
      | error y =>
        rw [hc] at h
        dsimp only at h
        simp only [Except.error.injEq] at h
        exact ⟨rfl, rfl, h.symm⟩

/-- Witness for C7: a network where every fetch throws makes both
strategies fail and surfaces exactly the aggregated guidance message. -/
theorem retrieve_fallback_spec_witness :
    retrieveRaw netC7 0 0 gvizUrl = .error connectErrMsg ∧
    (strategyAllOrigins netC7 0 gvizUrl).isOk = false ∧
    (strategyCorsProxy netC7 0 gvizUrl).isOk = false := by
  have hA : strategyAllOrigins netC7 0 gvizUrl = .error (("NetworkError").data) := rfl
  have hC : strategyCorsProxy netC7 0 gvizUrl = .error (("NetworkError").data) := rfl
  have h := retrieve_fallback_spec netC7 0 0 gvizUrl (("NetworkError").data)
    (("NetworkError").data) [] []
  exact ⟨h.2.1 hA hC, by rw [hA]; rfl, by rw [hC]; rfl⟩
